import Mathlib

/-!
Verification of the libap lockfile module of s390-tools
(sources: src/libap/lockfile.c, src/libap/lockfile.h).

The C code is shallowly embedded: file names are lists of characters,
machine integers are modelled as Nat/Int (the quantities involved —
retry counters, pids, timestamps — stay far from any overflow boundary
in all reachable configurations), and every interaction with the
operating system (stat, open, read, link, unlink, kill, time) is an
oracle value supplied as an explicit argument, so each function is a
pure, executable Lean definition mirroring the control flow of the C
source line by line.
-/

namespace Lockfile

/-! Error codes from src/libap/lockfile.h. -/

def LOCK_ERR_TMPLOCK : Nat := 2
def LOCK_ERR_TMPWRITE : Nat := 3
def LOCK_ERR_MAXRETRIES : Nat := 4
def LOCK_ERR_GENERIC : Nat := 5
def LOCK_ERR_RMSTALE : Nat := 8
def UNLOCK_ERR_GENERIC : Int := -1

/-! ## Temp-name generation (tmplock_filename, lockfile.c lines 27-52)

The C code formats "%s%s%0*d%0*x" with TMPLOCK_EXT = ".lk",
TMPLOCK_PID_SIZE = 5 and TMPLOCK_TIME_SIZE = 1, the last argument being
time(NULL) & 15.  snprintf writes at most bufsize-1 characters plus a
terminating NUL and returns the length the full text would have had;
that return value is negative only on an encoding error, which cannot
happen for this format, so the model always produces the (possibly
truncated) buffer contents. -/

def TMPLOCK_EXT : List Char := ['.', 'l', 'k']
def TMPLOCK_PID_SIZE : Nat := 5
def TMPLOCK_SUFFIX_SIZE : Nat := TMPLOCK_EXT.length + TMPLOCK_PID_SIZE + 1

/-- Lowercase hexadecimal digit, as printf %x produces for values 0..15. -/
def hexDigit (n : Nat) : Char :=
  if n < 10 then Char.ofNat (48 + n) else Char.ofNat (87 + n)

/-- Zero padding to a minimum field width, as printf %0*d for a
nonnegative argument (getpid() is always positive). -/
def zeroPad (w : Nat) (s : List Char) : List Char :=
  List.replicate (w - s.length) '0' ++ s

/-- Decimal digits of a natural number, most significant first; the
fuel argument (always sufficient at n + 1) only drives the
recursion. -/
def natDigitsCore : Nat → Nat → List Char → List Char
  | 0, _, acc => acc
  | fuel + 1, n, acc =>
    if n < 10 then hexDigit n :: acc
    else natDigitsCore fuel (n / 10) (hexDigit (n % 10) :: acc)

/-- Decimal digits of a natural number, as printf %d renders it. -/
def natDigits (n : Nat) : List Char :=
  natDigitsCore (n + 1) n []

/-- The full, untruncated text that the snprintf format in
tmplock_filename describes: lockfile ++ ".lk" ++ zero-padded pid
(width 5) ++ one hex digit of time & 15. -/
def tmplockFullName (lockfile : List Char) (pid t : Nat) : List Char :=
  lockfile ++ TMPLOCK_EXT ++ zeroPad TMPLOCK_PID_SIZE (natDigits pid) ++
    [hexDigit (t % 16)]

/-- Model of tmplock_filename (lockfile.c lines 33-52).  `none` stands
for the LOCK_ERR_GENERIC return; `some buf` for return value 0 with
`buf` the NUL-terminated buffer contents, which snprintf truncates to
bufsize-1 characters.  `pid` and `t` are the ambient getpid() and
time(NULL) values.  The NULL-buffer argument check of the C code is
implicit: the model always has a buffer. -/
def tmplock_filename (lockfile : Option (List Char)) (bufsize : Nat)
    (pid t : Nat) : Option (List Char) :=
  match lockfile with
  | none => none
  | some lf =>
    if bufsize = 0 then none
    else some ((tmplockFullName lf pid t).take (bufsize - 1))

/-! ## Release (ap_lockfile_release, lockfile.c lines 261-270)

The filesystem state visible to release is whether the lock path
currently exists and whether an unlink of it would be permitted. -/

structure FS where
  lockPresent : Bool
  removable : Bool
deriving DecidableEq, Repr

inductive UnlinkRes where
  | ok
  | enoent
  | eother
deriving DecidableEq, Repr

/-- unlink(2) on the lock path: succeeds and removes the entry when it
is present and removable, fails with ENOENT when absent, fails with
another errno when present but not removable. -/
def fsUnlink (fs : FS) : UnlinkRes × FS :=
  if fs.lockPresent then
    if fs.removable then (UnlinkRes.ok, ⟨false, fs.removable⟩)
    else (UnlinkRes.eother, fs)
  else (UnlinkRes.enoent, fs)

/-- Model of ap_lockfile_release (lockfile.c lines 261-270): NULL
argument is UNLOCK_ERR_GENERIC; unlink failure with errno other than
ENOENT is UNLOCK_ERR_GENERIC; success and ENOENT both return 0. -/
def ap_lockfile_release (lockfileNull : Bool) (fs : FS) : Int × FS :=
  if lockfileNull then (UNLOCK_ERR_GENERIC, fs)
  else
    match fsUnlink fs with
    | (UnlinkRes.ok, fs2) => (0, fs2)
    | (UnlinkRes.enoent, fs2) => (0, fs2)
    | (UnlinkRes.eother, fs2) => (UNLOCK_ERR_GENERIC, fs2)

/-! ## Validity check (lockfile_check_valid, lockfile.c lines 55-113)

The oracle environment records the outcome of each system call the
function makes, in program order: the initial stat, the open, the fstat
before the read, the read (`none` is a read error, `some bytes` a
successful read of those bytes into the 16-byte buffer), the fstat
after the read, the wall clock obtained by time(&now), and what
kill(pid, 0) would report for the parsed pid. -/

structure FStat where
  atime : Int
  mtime : Int
deriving DecidableEq, Repr

inductive KillResult where
  | ok
  | eperm
  | esrch
  | other
deriving DecidableEq, Repr

structure ValidEnv where
  stat0 : Option FStat
  openOk : Bool
  fstat1 : Option FStat
  readData : Option (List Char)
  fstat2 : Option FStat
  wallNow : Int
  kill : KillResult
deriving DecidableEq, Repr

/-- isspace for the characters atoi skips. -/
def isSpaceChar (c : Char) : Bool :=
  c = ' ' || c = '\t' || c = '\n' || c = '\x0b' || c = '\x0c' || c = '\r'

/-- Accumulate leading decimal digits, stopping at the first
non-digit. -/
def digitsVal : List Char → Nat → Nat
  | [], acc => acc
  | c :: cs, acc =>
    if c.isDigit then digitsVal cs (acc * 10 + (c.toNat - 48)) else acc

/-- Model of atoi(3): skip leading whitespace, optional sign, then
leading decimal digits; 0 when no digits are found.  Overflow is
undefined behaviour in C and is modelled exactly (mathematical
integers); all pids fit comfortably. -/
def atoi (s : List Char) : Int :=
  let s1 := s.dropWhile isSpaceChar
  match s1 with
  | '-' :: rest => -(digitsVal rest 0 : Int)
  | '+' :: rest => (digitsVal rest 0 : Int)
  | _ => (digitsVal s1 0 : Int)

/-- The size of the stack buffer `char buf[16]` in
lockfile_check_valid. -/
def checkValid_bufSize : Nat := 16

/-- The value of `len` after the open/fstat/read sequence of
lockfile_check_valid (lines 69-83): 0 when the open or the first fstat
fails, -1 when the read fails, the number of bytes read otherwise. -/
def checkValid_len (e : ValidEnv) : Int :=
  if e.openOk then
    match e.fstat1 with
    | none => 0
    | some _ =>
      match e.readData with
      | none => -1
      | some s => (s.length : Int)
  else 0

/-- The index at which lockfile_check_valid stores the terminating NUL
(`buf[len] = 0`, line 86), when that store is executed (len > 0). -/
def checkValid_bufWriteIndex (e : ValidEnv) : Option Nat :=
  if e.openOk then
    match e.fstat1, e.readData with
    | some _, some s => if 0 < s.length then some s.length else none
    | _, _ => none
  else none

/-- The reference time `now` after lines 67-81: the wall clock, unless
the open, the pre-read fstat, the read and the post-read fstat all
succeed and the two observed atimes differ, in which case the code
assigns `now = st.st_atime` — the atime from the fstat taken BEFORE
the read. -/
def checkValid_now (e : ValidEnv) : Int :=
  if e.openOk then
    match e.fstat1, e.readData, e.fstat2 with
    | some st, some _, some st2 =>
      if st.atime ≠ st2.atime then st.atime else e.wallNow
    | _, _, _ => e.wallNow
  else e.wallNow

/-- The pid parsed from the lock file (lines 68, 84-88): atoi of the
bytes read, when the open succeeded, the pre-read fstat succeeded and
the read returned a positive length; 0 otherwise. -/
def checkValid_pid (e : ValidEnv) : Int :=
  if e.openOk then
    match e.fstat1, e.readData with
    | some _, some s => if 0 < s.length then atoi s else 0
    | _, _ => 0
  else 0

/-- The st.st_mtime consulted by the age heuristic (line 109): `st` is
overwritten by the pre-read fstat when the open and that fstat succeed,
otherwise it still holds the initial stat's data. -/
def checkValid_mtime (e : ValidEnv) : Int :=
  if e.openOk then
    match e.fstat1 with
    | some st => st.mtime
    | none => match e.stat0 with | some st => st.mtime | none => 0
  else match e.stat0 with | some st => st.mtime | none => 0

/-- Model of lockfile_check_valid (lockfile.c lines 55-113).  Returns
false when the initial stat fails; with a positive parsed pid, decides
by the kill(pid, 0) probe (success or EPERM means live, ESRCH means
stale, anything else falls through); otherwise decides by the age
heuristic now < mtime + 300. -/
def lockfile_check_valid (e : ValidEnv) : Bool :=
  match e.stat0 with
  | none => false
  | some _ =>
    let pid := checkValid_pid e
    let now := checkValid_now e
    let mt := checkValid_mtime e
    if 0 < pid then
      match e.kill with
      | KillResult.ok => true
      | KillResult.eperm => true
      | KillResult.esrch => false
      | KillResult.other => decide (now < mt + 300)
    else decide (now < mt + 300)

/-! ## Acquirer (lockfile_try_create / ap_lockfile_create,
lockfile.c lines 121-253)

Each iteration of the claim loop interacts with the filesystem; the
oracle `env : Nat → IterEnv` gives, for loop index i, the outcomes that
iteration observes: the lstat of the temp path, the lstat of the lock
path (each with the st_rdev and st_ino fields the code compares), the
verdict lockfile_check_valid(lockfile) would return at that moment, and
the outcome of unlink(lockfile).  The return value of link() is cast to
void in the source and so does not appear.  The run record reports the
C return value, whether the temp file was created, whether it was
unlinked again before returning, and a log with one entry per executed
loop iteration (its index, whether the backoff sleep ran, and whether a
stale lock file was successfully removed). -/

structure StatInfo where
  rdev : Nat
  ino : Nat
deriving DecidableEq, Repr

structure IterEnv where
  tmpStat : Option StatInfo
  lockStat : Option StatInfo
  valid : Bool
  unlinkLock : UnlinkRes
deriving DecidableEq, Repr

structure IterLog where
  idx : Nat
  slept : Bool
  staleRemoved : Bool
deriving DecidableEq, Repr

structure RunOut where
  result : Nat
  tempCreated : Bool
  tempUnlinked : Bool
  log : List IterLog
deriving DecidableEq, Repr

/-- The retry loop of lockfile_try_create (lockfile.c lines 156-225),
with the mutable C locals as parameters: `tries` (initially retries+1,
incremented by the stale-reclaim rule when it equals 1), loop counter
`i`, `statfailed`, `sleeptime`, and `dontsleep` (initially 1).  The
function returns the loop's result together with the temp-file
bookkeeping and the per-iteration log. -/
def tryLoop (env : Nat → IterEnv) (tries i statfailed sleeptime : Nat)
    (dontsleep : Bool) : RunOut :=
  if _h : i < tries then
    let e := env i
    let slept := !dontsleep
    let sleeptime2 := if dontsleep then sleeptime else min (sleeptime + 5) 60
    match e.tmpStat with
    | none =>
      -- lstat(tmplock_buf) failed: return LOCK_ERR_GENERIC, no unlink.
      ⟨LOCK_ERR_GENERIC, true, false, [⟨i, slept, false⟩]⟩
    | some st1 =>
      match e.lockStat with
      | none =>
        if 5 < statfailed then
          -- repeated stat failure: unlink temp, LOCK_ERR_MAXRETRIES.
          ⟨LOCK_ERR_MAXRETRIES, true, true, [⟨i, slept, false⟩]⟩
        else
          let rest := tryLoop env tries (i + 1) (statfailed + 1) sleeptime2 false
          { rest with log := ⟨i, slept, false⟩ :: rest.log }
      | some st =>
        if st.rdev = st1.rdev ∧ st.ino = st1.ino then
          -- we got the lock: unlink temp, return 0.
          ⟨0, true, true, [⟨i, slept, false⟩]⟩
        else
          if e.valid then
            let rest := tryLoop env tries (i + 1) 0 sleeptime2 false
            { rest with log := ⟨i, slept, false⟩ :: rest.log }
          else
            match e.unlinkLock with
            | UnlinkRes.eother =>
              -- failed to unlink the stale lockfile: LOCK_ERR_RMSTALE,
              -- returned without unlinking the temp file.
              ⟨LOCK_ERR_RMSTALE, true, false, [⟨i, slept, false⟩]⟩
            | _ =>
              let tries2 := if tries = 1 then tries + 1 else tries
              let rest := tryLoop env tries2 (i + 1) 0 sleeptime2 true
              { rest with log := ⟨i, slept, true⟩ :: rest.log }
  else
    -- loop exhausted: unlink temp, LOCK_ERR_MAXRETRIES.
    ⟨LOCK_ERR_MAXRETRIES, true, true, []⟩
termination_by tries - i + (if tries = 1 then 1 else 0)
decreasing_by
  all_goals simp_wf
  all_goals first
    | omega
    | (split_ifs <;> omega)

/-- Model of lockfile_try_create (lockfile.c lines 121-226).  `pid` is
the pid written into the lock record, `npid`/`ntime` the ambient
getpid()/time() used for the temp name, `openExclOk` whether the
exclusive O_CREAT|O_EXCL open succeeds, `writeCloseOk` whether the
payload write and close both succeed with the full length. -/
def lockfile_try_create (lockfile : Option (List Char)) (pid : Nat)
    (bufsize npid ntime : Nat) (openExclOk writeCloseOk : Bool)
    (env : Nat → IterEnv) (retries : Nat) : RunOut :=
  let pidlen := (natDigits pid).length + 1
  if 39 < pidlen then ⟨LOCK_ERR_GENERIC, false, false, []⟩
  else
    match tmplock_filename lockfile bufsize npid ntime with
    | none => ⟨LOCK_ERR_GENERIC, false, false, []⟩
    | some _ =>
      if !openExclOk then ⟨LOCK_ERR_TMPLOCK, false, false, []⟩
      else if !writeCloseOk then ⟨LOCK_ERR_TMPWRITE, true, true, []⟩
      else tryLoop env (retries + 1) 0 0 0 true

/-- Model of ap_lockfile_create (lockfile.c lines 234-253): NULL
lockfile or retries == 0 is LOCK_ERR_GENERIC, as is a malloc failure;
otherwise lockfile_try_create runs with a buffer of
strlen(lockfile) + TMPLOCK_SUFFIX_SIZE + 1 bytes. -/
def ap_lockfile_create (lockfile : Option (List Char)) (pid retries : Nat)
    (mallocOk openExclOk writeCloseOk : Bool) (npid ntime : Nat)
    (env : Nat → IterEnv) : RunOut :=
  match lockfile with
  | none => ⟨LOCK_ERR_GENERIC, false, false, []⟩
  | some lf =>
    if retries = 0 then ⟨LOCK_ERR_GENERIC, false, false, []⟩
    else if !mallocOk then ⟨LOCK_ERR_GENERIC, false, false, []⟩
    else
      lockfile_try_create (some lf) pid (lf.length + TMPLOCK_SUFFIX_SIZE + 1)
        npid ntime openExclOk writeCloseOk env retries

/-- The sleep discipline of the claim loop: relative to the incoming
dontsleep flag, an iteration sleeps exactly when the flag is unset, and
the flag for the next iteration is exactly whether this iteration
removed a stale lock. -/
def sleepsOk : Bool → List IterLog → Prop
  | _, [] => True
  | ds, e :: rest => e.slept = !ds ∧ sleepsOk e.staleRemoved rest

/-! Concrete oracle environments used to evaluate the model on
specific runs. -/

/-- An iteration in which another process holds a valid lock: the two
lstats succeed but disagree on device+inode, and the validity check
reports the lock as live. -/
def envBusy : IterEnv := ⟨some ⟨1, 2⟩, some ⟨3, 4⟩, true, UnlinkRes.ok⟩

/-- An iteration against a stale lock that can be removed: mismatching
stats, validity check false, unlink of the lock path succeeds. -/
def envStale : IterEnv := ⟨some ⟨1, 2⟩, some ⟨3, 4⟩, false, UnlinkRes.ok⟩

/-- An iteration against a stale lock whose removal fails with an errno
other than ENOENT. -/
def envStaleStuck : IterEnv := ⟨some ⟨1, 2⟩, some ⟨3, 4⟩, false, UnlinkRes.eother⟩

/-- An iteration in which the link succeeded: both lstats agree on
device and inode. -/
def envWin : IterEnv := ⟨some ⟨1, 2⟩, some ⟨1, 2⟩, true, UnlinkRes.ok⟩

/-- Every iteration contends against a live lock. -/
def busyEnvF : Nat → IterEnv := fun _ => envBusy

/-- First iteration contends against a live lock, all later iterations
find a removable stale lock. -/
def staleLastEnvF : Nat → IterEnv := fun i => if i = 0 then envBusy else envStale

/-- Every iteration finds a stale lock whose removal fails. -/
def staleStuckEnvF : Nat → IterEnv := fun _ => envStaleStuck

/-- Every iteration succeeds in claiming the lock. -/
def winEnvF : Nat → IterEnv := fun _ => envWin

/-- First iteration removes a stale lock, later iterations claim the
lock successfully. -/
def staleThenWinEnvF : Nat → IterEnv := fun i => if i = 0 then envStale else envWin

/-- A lock file with the record "42\n", read successfully; the probe
oracle reports the process alive. -/
def c4Env : ValidEnv :=
  ⟨some ⟨0, 0⟩, true, some ⟨0, 0⟩, some ['4', '2', '\n'], some ⟨0, 0⟩, 0, KillResult.ok⟩

/-- An empty (pid-less) lock file of mtime 100 read at wall clock 110,
with equal pre- and post-read atimes. -/
def c5Env : ValidEnv :=
  ⟨some ⟨0, 100⟩, true, some ⟨0, 100⟩, some [], some ⟨0, 100⟩, 110, KillResult.other⟩

/-- An empty lock file of mtime 0 observed at wall clock 301: modified
more than 300 seconds ago. -/
def c5OldEnv : ValidEnv :=
  ⟨some ⟨0, 0⟩, true, some ⟨0, 0⟩, some [], some ⟨0, 0⟩, 301, KillResult.other⟩

/-- An empty lock file of mtime 0 observed at wall clock 10: modified
10 seconds ago. -/
def c5FreshEnv : ValidEnv :=
  ⟨some ⟨0, 0⟩, true, some ⟨0, 0⟩, some [], some ⟨0, 0⟩, 10, KillResult.other⟩

/-- A run in which the filesystem updates atime on read: the fstat
before the read observes atime 100, the fstat after the read observes
atime 200, and the wall clock says 1000. -/
def c6Env : ValidEnv :=
  ⟨some ⟨100, 50⟩, true, some ⟨100, 50⟩, some ['x'], some ⟨200, 50⟩, 1000, KillResult.other⟩

/-- A lock file holding at least 16 bytes: the read fills the whole
16-byte buffer, so read() returns 16. -/
def c10Env : ValidEnv :=
  ⟨some ⟨0, 0⟩, true, some ⟨0, 0⟩, some (List.replicate 16 '1'), some ⟨0, 0⟩, 0,
    KillResult.ok⟩

/-- The conjunction of loop invariants established by one induction
over the claim loop: the iteration-count bound (by the fuel n, an upper
bound on the termination measure), the sleep discipline, the
ownership-confirmation property of a 0 (Acquired) result, the temp-file
bookkeeping of each result code, and that every run of the loop reports
the temp file as created. -/
def LoopInv (env : Nat → IterEnv) (n : Nat) (ds : Bool) (o : RunOut) : Prop :=
  o.log.length ≤ n ∧
  sleepsOk ds o.log ∧
  (o.result = 0 →
    ∃ l s1 s, o.log.getLast? = some l ∧ (env l.idx).tmpStat = some s1 ∧
      (env l.idx).lockStat = some s ∧ s.rdev = s1.rdev ∧ s.ino = s1.ino) ∧
  (o.result = LOCK_ERR_MAXRETRIES → o.tempUnlinked = true) ∧
  (o.result = 0 → o.tempUnlinked = true) ∧
  (o.result = LOCK_ERR_RMSTALE → o.tempUnlinked = false) ∧
  (o.result = LOCK_ERR_GENERIC → o.tempUnlinked = false) ∧
  o.result ≠ LOCK_ERR_TMPWRITE ∧
  o.tempCreated = true

/-! Branch-by-branch unfolding equations for tryLoop. -/

theorem tryLoop_eq_exit (env : Nat → IterEnv) (tries i sf st : Nat) (ds : Bool)
    (h : ¬ i < tries) :
    tryLoop env tries i sf st ds = ⟨LOCK_ERR_MAXRETRIES, true, true, []⟩ := by
  rw [tryLoop, dif_neg h]

theorem tryLoop_eq_tmpNone (env : Nat → IterEnv) (tries i sf st : Nat) (ds : Bool)
    (h : i < tries) (h1 : (env i).tmpStat = none) :
    tryLoop env tries i sf st ds = ⟨LOCK_ERR_GENERIC, true, false, [⟨i, !ds, false⟩]⟩ := by
  rw [tryLoop, dif_pos h]
  simp only [h1]

theorem tryLoop_eq_statfailStop (env : Nat → IterEnv) (tries i sf st : Nat) (ds : Bool)
    (h : i < tries) (s1 : StatInfo) (h1 : (env i).tmpStat = some s1)
    (h2 : (env i).lockStat = none) (h3 : 5 < sf) :
    tryLoop env tries i sf st ds = ⟨LOCK_ERR_MAXRETRIES, true, true, [⟨i, !ds, false⟩]⟩ := by
  rw [tryLoop, dif_pos h]
  simp only [h1, h2]
  rw [if_pos h3]

theorem tryLoop_eq_statfailCont (env : Nat → IterEnv) (tries i sf st : Nat) (ds : Bool)
    (h : i < tries) (s1 : StatInfo) (h1 : (env i).tmpStat = some s1)
    (h2 : (env i).lockStat = none) (h3 : ¬ 5 < sf) :
    tryLoop env tries i sf st ds =
      ⟨(tryLoop env tries (i + 1) (sf + 1) (if ds = true then st else min (st + 5) 60) false).result,
       (tryLoop env tries (i + 1) (sf + 1) (if ds = true then st else min (st + 5) 60) false).tempCreated,
       (tryLoop env tries (i + 1) (sf + 1) (if ds = true then st else min (st + 5) 60) false).tempUnlinked,
       ⟨i, !ds, false⟩ ::
         (tryLoop env tries (i + 1) (sf + 1) (if ds = true then st else min (st + 5) 60) false).log⟩ := by
  rw [tryLoop, dif_pos h]
  simp only [h1, h2]
  rw [if_neg h3]

theorem tryLoop_eq_acquired (env : Nat → IterEnv) (tries i sf st : Nat) (ds : Bool)
    (h : i < tries) (s1 s : StatInfo) (h1 : (env i).tmpStat = some s1)
    (h2 : (env i).lockStat = some s) (h3 : s.rdev = s1.rdev ∧ s.ino = s1.ino) :
    tryLoop env tries i sf st ds = ⟨0, true, true, [⟨i, !ds, false⟩]⟩ := by
  rw [tryLoop, dif_pos h]
  simp only [h1, h2]
  rw [if_pos h3]

theorem tryLoop_eq_validCont (env : Nat → IterEnv) (tries i sf st : Nat) (ds : Bool)
    (h : i < tries) (s1 s : StatInfo) (h1 : (env i).tmpStat = some s1)
    (h2 : (env i).lockStat = some s) (h3 : ¬ (s.rdev = s1.rdev ∧ s.ino = s1.ino))
    (h4 : (env i).valid = true) :
    tryLoop env tries i sf st ds =
      ⟨(tryLoop env tries (i + 1) 0 (if ds = true then st else min (st + 5) 60) false).result,
       (tryLoop env tries (i + 1) 0 (if ds = true then st else min (st + 5) 60) false).tempCreated,
       (tryLoop env tries (i + 1) 0 (if ds = true then st else min (st + 5) 60) false).tempUnlinked,
       ⟨i, !ds, false⟩ ::
         (tryLoop env tries (i + 1) 0 (if ds = true then st else min (st + 5) 60) false).log⟩ := by
  rw [tryLoop, dif_pos h]
  simp only [h1, h2, h4]
  rw [if_neg h3]
  simp only [if_pos]

theorem tryLoop_eq_rmstale (env : Nat → IterEnv) (tries i sf st : Nat) (ds : Bool)
    (h : i < tries) (s1 s : StatInfo) (h1 : (env i).tmpStat = some s1)
    (h2 : (env i).lockStat = some s) (h3 : ¬ (s.rdev = s1.rdev ∧ s.ino = s1.ino))
    (h4 : (env i).valid = false) (h5 : (env i).unlinkLock = UnlinkRes.eother) :
    tryLoop env tries i sf st ds = ⟨LOCK_ERR_RMSTALE, true, false, [⟨i, !ds, false⟩]⟩ := by
  rw [tryLoop, dif_pos h]
  simp only [h1, h2, h4, h5]
  rw [if_neg h3]
  simp only [Bool.false_eq_true, if_false]

theorem tryLoop_eq_staleCont (env : Nat → IterEnv) (tries i sf st : Nat) (ds : Bool)
    (h : i < tries) (s1 s : StatInfo) (h1 : (env i).tmpStat = some s1)
    (h2 : (env i).lockStat = some s) (h3 : ¬ (s.rdev = s1.rdev ∧ s.ino = s1.ino))
    (h4 : (env i).valid = false) (h5 : (env i).unlinkLock ≠ UnlinkRes.eother) :
    tryLoop env tries i sf st ds =
      ⟨(tryLoop env (if tries = 1 then tries + 1 else tries) (i + 1) 0
          (if ds = true then st else min (st + 5) 60) true).result,
       (tryLoop env (if tries = 1 then tries + 1 else tries) (i + 1) 0
          (if ds = true then st else min (st + 5) 60) true).tempCreated,
       (tryLoop env (if tries = 1 then tries + 1 else tries) (i + 1) 0
          (if ds = true then st else min (st + 5) 60) true).tempUnlinked,
       ⟨i, !ds, true⟩ ::
         (tryLoop env (if tries = 1 then tries + 1 else tries) (i + 1) 0
            (if ds = true then st else min (st + 5) 60) true).log⟩ := by
  rw [tryLoop, dif_pos h]
  cases hu : (env i).unlinkLock with
  | eother => exact absurd hu h5
  | ok =>
    simp only [h1, h2, h4, hu]
    rw [if_neg h3]
    simp only [Bool.false_eq_true, if_false]
  | enoent =>
    simp only [h1, h2, h4, hu]
    rw [if_neg h3]
    simp only [Bool.false_eq_true, if_false]

theorem tryLoop_inv (env : Nat → IterEnv) :
    ∀ (n tries i statfailed sleeptime : Nat) (ds : Bool),
      tries - i + (if tries = 1 then 1 else 0) ≤ n →
      LoopInv env n ds (tryLoop env tries i statfailed sleeptime ds) := by
  intro n
  induction n with
  | zero =>
    intro tries i sf st ds hn
    have hge : ¬ i < tries := by
      intro hlt
      have h1 : 1 ≤ tries - i := by omega
      split at hn <;> omega
    rw [tryLoop_eq_exit env tries i sf st ds hge]
    exact ⟨by simp, trivial, by simp [LOCK_ERR_MAXRETRIES], by simp,
      by simp [LOCK_ERR_MAXRETRIES], by simp [LOCK_ERR_RMSTALE, LOCK_ERR_MAXRETRIES],
      by simp [LOCK_ERR_GENERIC, LOCK_ERR_MAXRETRIES],
      by simp [LOCK_ERR_MAXRETRIES, LOCK_ERR_TMPWRITE], rfl⟩
  | succ n ih =>
    intro tries i sf st ds hn
    by_cases hlt : i < tries
    · cases h1 : (env i).tmpStat with
      | none =>
        rw [tryLoop_eq_tmpNone env tries i sf st ds hlt h1]
        exact ⟨by simp, ⟨rfl, trivial⟩, by simp [LOCK_ERR_GENERIC],
          by simp [LOCK_ERR_MAXRETRIES, LOCK_ERR_GENERIC], by simp [LOCK_ERR_GENERIC],
          by simp [LOCK_ERR_RMSTALE, LOCK_ERR_GENERIC], by simp,
          by simp [LOCK_ERR_GENERIC, LOCK_ERR_TMPWRITE], rfl⟩
      | some s1 =>
        cases h2 : (env i).lockStat with
        | none =>
          by_cases h3 : 5 < sf
          · rw [tryLoop_eq_statfailStop env tries i sf st ds hlt s1 h1 h2 h3]
            exact ⟨by simp, ⟨rfl, trivial⟩, by simp [LOCK_ERR_MAXRETRIES], by simp,
              by simp [LOCK_ERR_MAXRETRIES], by simp [LOCK_ERR_RMSTALE, LOCK_ERR_MAXRETRIES],
              by simp [LOCK_ERR_GENERIC, LOCK_ERR_MAXRETRIES],
              by simp [LOCK_ERR_MAXRETRIES, LOCK_ERR_TMPWRITE], rfl⟩
          · rw [tryLoop_eq_statfailCont env tries i sf st ds hlt s1 h1 h2 h3]
            generalize (if ds = true then st else min (st + 5) 60) = st2
            obtain ⟨L, S, A, U4, U0, U8, U5, T, C⟩ :=
              ih tries (i + 1) (sf + 1) st2 false
                (by rcases eq_or_ne tries 1 with htr | htr <;> simp [htr] at hn ⊢ <;> omega)
            refine ⟨by simp only [List.length_cons]; omega, ⟨rfl, S⟩, ?_, U4, U0, U8, U5, T, C⟩
            intro hr
            obtain ⟨l, sa, sb, hlast, rest⟩ := A hr
            refine ⟨l, sa, sb, ?_, rest⟩
            cases hlog : (tryLoop env tries (i + 1) (sf + 1) st2 false).log with
            | nil => rw [hlog] at hlast; simp at hlast
            | cons a as =>
              simp only [hlog] at hlast ⊢
              rw [List.getLast?_cons_cons]
              exact hlast
        | some s =>
          by_cases h3 : s.rdev = s1.rdev ∧ s.ino = s1.ino
          · rw [tryLoop_eq_acquired env tries i sf st ds hlt s1 s h1 h2 h3]
            refine ⟨by simp, ⟨rfl, trivial⟩, ?_, by simp [LOCK_ERR_MAXRETRIES],
              by simp, by simp [LOCK_ERR_RMSTALE], by simp [LOCK_ERR_GENERIC],
              by simp [LOCK_ERR_TMPWRITE], rfl⟩
            intro _
            exact ⟨⟨i, !ds, false⟩, s1, s, by simp, h1, h2, h3.1, h3.2⟩
          · cases h4 : (env i).valid with
            | true =>
              rw [tryLoop_eq_validCont env tries i sf st ds hlt s1 s h1 h2 h3 h4]
              generalize (if ds = true then st else min (st + 5) 60) = st2
              obtain ⟨L, S, A, U4, U0, U8, U5, T, C⟩ :=
                ih tries (i + 1) 0 st2 false
                  (by rcases eq_or_ne tries 1 with htr | htr <;> simp [htr] at hn ⊢ <;> omega)
              refine ⟨by simp only [List.length_cons]; omega, ⟨rfl, S⟩, ?_, U4, U0, U8, U5, T, C⟩
              intro hr
              obtain ⟨l, sa, sb, hlast, rest⟩ := A hr
              refine ⟨l, sa, sb, ?_, rest⟩
              cases hlog : (tryLoop env tries (i + 1) 0 st2 false).log with
              | nil => rw [hlog] at hlast; simp at hlast
              | cons a as =>
                simp only [hlog] at hlast ⊢
                rw [List.getLast?_cons_cons]
                exact hlast
            | false =>
              cases h5 : (env i).unlinkLock with
              | eother =>
                rw [tryLoop_eq_rmstale env tries i sf st ds hlt s1 s h1 h2 h3 h4 h5]
                exact ⟨by simp, ⟨rfl, trivial⟩, by simp [LOCK_ERR_RMSTALE],
                  by simp [LOCK_ERR_MAXRETRIES, LOCK_ERR_RMSTALE], by simp [LOCK_ERR_RMSTALE],
                  by simp, by simp [LOCK_ERR_GENERIC, LOCK_ERR_RMSTALE],
                  by simp [LOCK_ERR_RMSTALE, LOCK_ERR_TMPWRITE], rfl⟩
              | ok =>
                rw [tryLoop_eq_staleCont env tries i sf st ds hlt s1 s h1 h2 h3 h4 (by simp [h5])]
                generalize (if ds = true then st else min (st + 5) 60) = st2
                generalize htr2 : (if tries = 1 then tries + 1 else tries) = tries2
                obtain ⟨L, S, A, U4, U0, U8, U5, T, C⟩ :=
                  ih tries2 (i + 1) 0 st2 true
                    (by rcases eq_or_ne tries 1 with htr | htr <;>
                          simp [htr] at hn htr2 <;>
                          rcases eq_or_ne tries2 1 with htr3 | htr3 <;> simp [htr3] <;> omega)
                refine ⟨by simp only [List.length_cons]; omega, ⟨rfl, S⟩, ?_, U4, U0, U8, U5, T, C⟩
                intro hr
                obtain ⟨l, sa, sb, hlast, rest⟩ := A hr
                refine ⟨l, sa, sb, ?_, rest⟩
                cases hlog : (tryLoop env tries2 (i + 1) 0 st2 true).log with
                | nil => rw [hlog] at hlast; simp at hlast
                | cons a as =>
                  simp only [hlog] at hlast ⊢
                  rw [List.getLast?_cons_cons]
                  exact hlast
              | enoent =>
                rw [tryLoop_eq_staleCont env tries i sf st ds hlt s1 s h1 h2 h3 h4 (by simp [h5])]
                generalize (if ds = true then st else min (st + 5) 60) = st2
                generalize htr2 : (if tries = 1 then tries + 1 else tries) = tries2
                obtain ⟨L, S, A, U4, U0, U8, U5, T, C⟩ :=
                  ih tries2 (i + 1) 0 st2 true
                    (by rcases eq_or_ne tries 1 with htr | htr <;>
                          simp [htr] at hn htr2 <;>
                          rcases eq_or_ne tries2 1 with htr3 | htr3 <;> simp [htr3] <;> omega)
                refine ⟨by simp only [List.length_cons]; omega, ⟨rfl, S⟩, ?_, U4, U0, U8, U5, T, C⟩
                intro hr
                obtain ⟨l, sa, sb, hlast, rest⟩ := A hr
                refine ⟨l, sa, sb, ?_, rest⟩
                cases hlog : (tryLoop env tries2 (i + 1) 0 st2 true).log with
                | nil => rw [hlog] at hlast; simp at hlast
                | cons a as =>
                  simp only [hlog] at hlast ⊢
                  rw [List.getLast?_cons_cons]
                  exact hlast
    · rw [tryLoop_eq_exit env tries i sf st ds hlt]
      exact ⟨by simp, trivial, by simp [LOCK_ERR_MAXRETRIES], by simp,
        by simp [LOCK_ERR_MAXRETRIES], by simp [LOCK_ERR_RMSTALE, LOCK_ERR_MAXRETRIES],
        by simp [LOCK_ERR_GENERIC, LOCK_ERR_MAXRETRIES],
      by simp [LOCK_ERR_MAXRETRIES, LOCK_ERR_TMPWRITE], rfl⟩

/-- Case analysis on lockfile_try_create: the result is one of the
three pre-loop returns or the run of the claim loop. -/
theorem try_create_cases (lfo : Option (List Char)) (pid bufsize npid ntime : Nat)
    (oOk wOk : Bool) (env : Nat → IterEnv) (retries : Nat) :
    lockfile_try_create lfo pid bufsize npid ntime oOk wOk env retries =
      ⟨LOCK_ERR_GENERIC, false, false, []⟩ ∨
    lockfile_try_create lfo pid bufsize npid ntime oOk wOk env retries =
      ⟨LOCK_ERR_TMPLOCK, false, false, []⟩ ∨
    lockfile_try_create lfo pid bufsize npid ntime oOk wOk env retries =
      ⟨LOCK_ERR_TMPWRITE, true, true, []⟩ ∨
    lockfile_try_create lfo pid bufsize npid ntime oOk wOk env retries =
      tryLoop env (retries + 1) 0 0 0 true := by
  unfold lockfile_try_create
  by_cases hp : 39 < (natDigits pid).length + 1
  · rw [if_pos hp]
    exact Or.inl rfl
  · rw [if_neg hp]
    cases htm : tmplock_filename lfo bufsize npid ntime with
    | none => exact Or.inl rfl
    | some nm =>
      cases oOk with
      | false => exact Or.inr (Or.inl rfl)
      | true =>
        cases wOk with
        | false => exact Or.inr (Or.inr (Or.inl rfl))
        | true => exact Or.inr (Or.inr (Or.inr rfl))

/-- Case analysis on ap_lockfile_create: the result is one of the
pre-loop returns, or (with a nonzero retries argument) the run of the
claim loop with tries = retries + 1. -/
theorem ap_create_cases (lfo : Option (List Char)) (pid retries : Nat)
    (mOk oOk wOk : Bool) (npid ntime : Nat) (env : Nat → IterEnv) :
    ap_lockfile_create lfo pid retries mOk oOk wOk npid ntime env =
      ⟨LOCK_ERR_GENERIC, false, false, []⟩ ∨
    ap_lockfile_create lfo pid retries mOk oOk wOk npid ntime env =
      ⟨LOCK_ERR_TMPLOCK, false, false, []⟩ ∨
    ap_lockfile_create lfo pid retries mOk oOk wOk npid ntime env =
      ⟨LOCK_ERR_TMPWRITE, true, true, []⟩ ∨
    (retries ≠ 0 ∧
      ap_lockfile_create lfo pid retries mOk oOk wOk npid ntime env =
        tryLoop env (retries + 1) 0 0 0 true) := by
  cases lfo with
  | none => exact Or.inl rfl
  | some lf =>
    unfold ap_lockfile_create
    dsimp only
    by_cases hr : retries = 0
    · rw [if_pos hr]
      exact Or.inl rfl
    · rw [if_neg hr]
      cases mOk with
      | false => exact Or.inl rfl
      | true =>
        simp only [Bool.not_true, Bool.false_eq_true, if_false]
        rcases try_create_cases (some lf) pid (lf.length + TMPLOCK_SUFFIX_SIZE + 1)
            npid ntime oOk wOk env retries with he | he | he | he
        · exact Or.inl he
        · exact Or.inr (Or.inl he)
        · exact Or.inr (Or.inr (Or.inl he))
        · exact Or.inr (Or.inr (Or.inr ⟨hr, he⟩))

/-! ## Claim theorems -/

/-- C4: for every lock file from which a positive pid was parsed, the
validity checker returns true when the zero-effect signal probe
succeeds or is denied with EPERM, returns false when the probe reports
ESRCH (no such process), and for any other probe outcome decides by the
age heuristic (now < mtime + 300) instead of returning at the probe
step. -/
theorem check_valid_probe_semantics (e : ValidEnv) (st : FStat)
    (h0 : e.stat0 = some st) (hpid : 0 < checkValid_pid e) :
    ((e.kill = KillResult.ok ∨ e.kill = KillResult.eperm) →
      lockfile_check_valid e = true) ∧
    (e.kill = KillResult.esrch → lockfile_check_valid e = false) ∧
    (e.kill = KillResult.other →
      (lockfile_check_valid e = true ↔
        checkValid_now e < checkValid_mtime e + 300)) := by
  refine ⟨?_, ?_, ?_⟩
  · rintro (hk | hk) <;> simp [lockfile_check_valid, h0, hk, hpid]
  · intro hk
    simp [lockfile_check_valid, h0, hk, hpid]
  · intro hk
    simp [lockfile_check_valid, h0, hk, hpid]

/-- Witness for C4: on a lock record "42\n" with a live-process probe,
the checker reports the lock valid. -/
theorem check_valid_probe_semantics_witness :
    0 < checkValid_pid c4Env ∧ lockfile_check_valid c4Env = true :=
  ⟨by decide,
    (check_valid_probe_semantics c4Env ⟨0, 0⟩ (by decide) (by decide)).1
      (Or.inl (by decide))⟩

/-- C5: whenever no usable pid was parsed (or the probe fell through),
the checker returns true exactly when the reference now is within 300
seconds after the lock file's mtime; in particular a pid-less lock
modified more than 300 seconds ago (c5OldEnv) is stale and one modified
10 seconds ago (c5FreshEnv) is valid. -/
theorem check_valid_age_heuristic (e : ValidEnv) (st : FStat)
    (h0 : e.stat0 = some st)
    (h : checkValid_pid e ≤ 0 ∨ e.kill = KillResult.other) :
    (lockfile_check_valid e = true ↔
      checkValid_now e - checkValid_mtime e < 300) ∧
    lockfile_check_valid c5OldEnv = false ∧
    lockfile_check_valid c5FreshEnv = true := by
  refine ⟨?_, by decide, by decide⟩
  rcases h with h | h
  · have hp : ¬ 0 < checkValid_pid e := by omega
    simp [lockfile_check_valid, h0, hp]
    omega
  · by_cases hp : 0 < checkValid_pid e
    · simp [lockfile_check_valid, h0, hp, h]
      omega
    · simp [lockfile_check_valid, h0, hp]
      omega

/-- Witness for C5: an empty lock file modified 10 seconds before the
reference now is reported valid. -/
theorem check_valid_age_heuristic_witness :
    checkValid_pid c5Env ≤ 0 ∧ lockfile_check_valid c5Env = true :=
  ⟨by decide,
    ((check_valid_age_heuristic c5Env ⟨0, 100⟩ (by decide)
      (Or.inl (by decide))).1).mpr (by decide)⟩

/-- C6 (code-bug evidence): in a run where the pre-read and post-read
access timestamps differ (100 vs 200), the reference now computed by
the code is 100 — the atime of the fstat taken BEFORE the read — not
the post-read access time 200 that the claim (and the code's own
comment, "use atime after read as now") describes. -/
theorem check_valid_now_uses_preread_atime :
    c6Env.fstat1 = some ⟨100, 50⟩ ∧ c6Env.fstat2 = some ⟨200, 50⟩ ∧
    (100 : Int) ≠ 200 ∧ checkValid_now c6Env = 100 ∧
    checkValid_now c6Env ≠ 200 := by decide

/-- C10 (code-bug evidence): a read that fills the whole 16-byte buffer
returns len = 16, and the code then stores the terminating NUL at index
len = 16, one past the last valid index 15 of char buf[16]. -/
theorem check_valid_nul_store_oob :
    checkValid_bufWriteIndex c10Env = some 16 ∧ checkValid_bufSize = 16 ∧
    ¬ (16 : Nat) ≤ 15 := by decide

/-- C8 (counterexample): with lock path "a", buffer size 5, pid 1 and
time 0 the composed name "a.lk000010" (10 characters) does not fit,
yet tmplock_filename returns success with the truncated name "a.lk"
instead of LOCK_ERR_GENERIC. -/
theorem tmplock_truncated_success :
    tmplock_filename (some ['a']) 5 1 0 = some ['a', '.', 'l', 'k'] ∧
    (tmplockFullName ['a'] 1 0).length = 10 ∧
    some ['a', '.', 'l', 'k'] ≠ some (tmplockFullName ['a'] 1 0) := by decide

/-- C8 (amended): tmplock_filename fails with GenericError exactly on a
NULL lock path or a zero-sized buffer; otherwise it returns success
with the composed name truncated to bufsize - 1 characters, which is
the full untruncated name whenever the buffer is strictly larger than
that name — truncation is not detected and does not prevent success. -/
theorem tmplock_filename_spec (lf : List Char) (bufsize pid t : Nat) :
    tmplock_filename none bufsize pid t = none ∧
    tmplock_filename (some lf) 0 pid t = none ∧
    (0 < bufsize →
      tmplock_filename (some lf) bufsize pid t =
        some ((tmplockFullName lf pid t).take (bufsize - 1))) ∧
    ((tmplockFullName lf pid t).length < bufsize →
      tmplock_filename (some lf) bufsize pid t =
        some (tmplockFullName lf pid t)) := by
  refine ⟨rfl, rfl, ?_, ?_⟩
  · intro h
    simp only [tmplock_filename]
    rw [if_neg (by omega)]
  · intro h
    simp only [tmplock_filename]
    rw [if_neg (by omega), List.take_of_length_le (by omega)]

/-- Witness for C8 (amended): with an 11-byte buffer the 10-character
composed name for lock path "a" is produced untruncated. -/
theorem tmplock_filename_spec_witness :
    (tmplockFullName ['a'] 1 0).length < 11 ∧
    tmplock_filename (some ['a']) 11 1 0 = some (tmplockFullName ['a'] 1 0) :=
  ⟨by decide, (tmplock_filename_spec ['a'] 11 1 0).2.2.2 (by decide)⟩

/-- C9: release returns 0 both when it removes an existing lock path
and when the path does not exist, returns UNLOCK_ERR_GENERIC for any
other removal failure, and is idempotent: running release twice from
any state gives the same result and final state as running it once. -/
theorem release_semantics_and_idempotent (fs : FS) :
    (fs.lockPresent = true → fs.removable = true →
      ap_lockfile_release false fs = (0, ⟨false, fs.removable⟩)) ∧
    (fs.lockPresent = false → ap_lockfile_release false fs = (0, fs)) ∧
    (fs.lockPresent = true → fs.removable = false →
      (ap_lockfile_release false fs).1 = UNLOCK_ERR_GENERIC) ∧
    ap_lockfile_release false (ap_lockfile_release false fs).2 =
      ap_lockfile_release false fs := by
  rcases fs with ⟨p, r⟩
  revert p r
  decide

/-- Witness for C9: releasing a present, removable lock removes it and
returns 0. -/
theorem release_semantics_and_idempotent_witness :
    ap_lockfile_release false ⟨true, true⟩ = (0, ⟨false, true⟩) :=
  (release_semantics_and_idempotent ⟨true, true⟩).1 rfl rfl

/-- C1: whenever ap_lockfile_create returns 0 (Acquired), the lstat of
the lock path taken just before success (at the final executed
iteration) and the lstat of the temp path at that same iteration both
succeeded and agree on both the device (st_rdev) and inode (st_ino)
fields; the ignored link() return value plays no role. -/
theorem acquired_implies_stat_match (lfo : Option (List Char)) (pid retries : Nat)
    (mOk oOk wOk : Bool) (npid ntime : Nat) (env : Nat → IterEnv)
    (h : (ap_lockfile_create lfo pid retries mOk oOk wOk npid ntime env).result = 0) :
    ∃ l s1 s,
      (ap_lockfile_create lfo pid retries mOk oOk wOk npid ntime env).log.getLast? =
        some l ∧
      (env l.idx).tmpStat = some s1 ∧ (env l.idx).lockStat = some s ∧
      s.rdev = s1.rdev ∧ s.ino = s1.ino := by
  rcases ap_create_cases lfo pid retries mOk oOk wOk npid ntime env with
    he | he | he | ⟨hr, he⟩
  · rw [he] at h
    simp [LOCK_ERR_GENERIC] at h
  · rw [he] at h
    simp [LOCK_ERR_TMPLOCK] at h
  · rw [he] at h
    simp [LOCK_ERR_TMPWRITE] at h
  · rw [he] at h ⊢
    obtain ⟨L, S, A, U4, U0, U8, U5, T, C⟩ :=
      tryLoop_inv env (retries + 2) (retries + 1) 0 0 0 true (by split <;> omega)
    exact A h

/-- Witness for C1: a run in which the first iteration observes
matching device+inode returns 0, and the matching stats are those of
the final logged iteration. -/
theorem acquired_implies_stat_match_witness :
    (ap_lockfile_create (some ['L']) 42 1 true true true 7 0 winEnvF).result = 0 ∧
    ∃ l s1 s,
      (ap_lockfile_create (some ['L']) 42 1 true true true 7 0 winEnvF).log.getLast? =
        some l ∧
      (winEnvF l.idx).tmpStat = some s1 ∧ (winEnvF l.idx).lockStat = some s ∧
      s.rdev = s1.rdev ∧ s.ino = s1.ino :=
  ⟨by simp [ap_lockfile_create, lockfile_try_create, tryLoop, tmplock_filename,
      natDigits, natDigitsCore, winEnvF, envWin],
   acquired_implies_stat_match (some ['L']) 42 1 true true true 7 0 winEnvF
     (by simp [ap_lockfile_create, lockfile_try_create, tryLoop, tmplock_filename,
          natDigits, natDigitsCore, winEnvF, envWin])⟩

/-- C2 (counterexample): with maxRetries = 1 and every iteration
contending against a live lock — no stale reclamation anywhere — the
claim loop executes 2 iterations (indices 0 and 1, neither with
staleRemoved), exceeding the claimed bound of maxRetries = 1
iterations. -/
theorem claim_loop_exceeds_requested_tries :
    (ap_lockfile_create (some ['L']) 42 1 true true true 7 0 busyEnvF).log =
      [⟨0, false, false⟩, ⟨1, true, false⟩] ∧
    (ap_lockfile_create (some ['L']) 42 1 true true true 7 0 busyEnvF).log.length = 2 := by
  constructor <;>
    simp [ap_lockfile_create, lockfile_try_create, tryLoop, tmplock_filename,
      natDigits, natDigitsCore, busyEnvF, envBusy]

/-- C2 (amended): the claim loop of ap_lockfile_create executes at most
maxRetries + 1 iterations — the code sets tries = retries + 1, so the
caller's requested count is the number of additional tries after the
first; the +1 stale-reclaim extension requires tries == 1 and so is
unreachable through ap_lockfile_create, which rejects retries = 0. -/
theorem loop_iterations_le_retries_succ (lfo : Option (List Char))
    (pid retries : Nat) (mOk oOk wOk : Bool) (npid ntime : Nat)
    (env : Nat → IterEnv) :
    (ap_lockfile_create lfo pid retries mOk oOk wOk npid ntime env).log.length ≤
      retries + 1 := by
  rcases ap_create_cases lfo pid retries mOk oOk wOk npid ntime env with
    he | he | he | ⟨hr, he⟩ <;> rw [he]
  · simp
  · simp
  · simp
  · obtain ⟨L, S, A, U4, U0, U8, U5, T, C⟩ :=
      tryLoop_inv env (retries + 1) (retries + 1) 0 0 0 true (by split <;> omega)
    exact L

/-- C3 (counterexample): with maxRetries = 1 (tries = 2), when the
final allowed iteration (index 1) successfully removes a stale lock,
no extra iteration is granted: the run ends after exactly 2 iterations
with LOCK_ERR_MAXRETRIES, because the extension condition is
tries == 1, not "this was the last allowed iteration". -/
theorem no_extra_iteration_on_last_stale :
    (ap_lockfile_create (some ['L']) 42 1 true true true 7 0 staleLastEnvF).log =
      [⟨0, false, false⟩, ⟨1, true, true⟩] ∧
    (ap_lockfile_create (some ['L']) 42 1 true true true 7 0 staleLastEnvF).result =
      LOCK_ERR_MAXRETRIES := by
  constructor <;>
    simp [ap_lockfile_create, lockfile_try_create, tryLoop, tmplock_filename,
      natDigits, natDigitsCore, staleLastEnvF, envBusy, envStale,
      LOCK_ERR_MAXRETRIES]

/-- C3 (amended): after an iteration that removes a stale lock the next
iteration skips the backoff sleep (the log obeys the sleepsOk
discipline: an iteration sleeps iff the incoming dontsleep flag is
unset, and that flag is set exactly by a stale removal); through
ap_lockfile_create no extra iteration is ever granted (at most
retries + 1 iterations), because the tries == 1 extension condition
requires retries = 0; calling the inner lockfile_try_create directly
with retries = 0 does grant exactly one extra iteration after a stale
removal, as the closing concrete run shows (stale removal at iteration
0, acquisition at the granted iteration 1). -/
theorem stale_skip_sleep_no_extension (lfo : Option (List Char))
    (pid retries : Nat) (mOk oOk wOk : Bool) (npid ntime : Nat)
    (env : Nat → IterEnv) :
    sleepsOk true (ap_lockfile_create lfo pid retries mOk oOk wOk npid ntime env).log ∧
    (ap_lockfile_create lfo pid retries mOk oOk wOk npid ntime env).log.length ≤
      retries + 1 ∧
    (lockfile_try_create (some ['L']) 7 11 7 0 true true staleThenWinEnvF 0).result = 0 ∧
    (lockfile_try_create (some ['L']) 7 11 7 0 true true staleThenWinEnvF 0).log =
      [⟨0, false, true⟩, ⟨1, false, false⟩] := by
  refine ⟨?_, ?_, ?_, ?_⟩
  · rcases ap_create_cases lfo pid retries mOk oOk wOk npid ntime env with
      he | he | he | ⟨hr, he⟩ <;> rw [he]
    · exact trivial
    · exact trivial
    · exact trivial
    · obtain ⟨L, S, A, U4, U0, U8, U5, T, C⟩ :=
        tryLoop_inv env (retries + 2) (retries + 1) 0 0 0 true (by split <;> omega)
      exact S
  · rcases ap_create_cases lfo pid retries mOk oOk wOk npid ntime env with
      he | he | he | ⟨hr, he⟩ <;> rw [he]
    · simp
    · simp
    · simp
    · obtain ⟨L, S, A, U4, U0, U8, U5, T, C⟩ :=
        tryLoop_inv env (retries + 1) (retries + 1) 0 0 0 true (by split <;> omega)
      exact L
  · simp [lockfile_try_create, tryLoop, tmplock_filename, natDigits, natDigitsCore,
      staleThenWinEnvF, envStale, envWin]
  · simp [lockfile_try_create, tryLoop, tmplock_filename, natDigits, natDigitsCore,
      staleThenWinEnvF, envStale, envWin]

/-- C7 (counterexample): when a stale lock is detected but its unlink
fails with an errno other than ENOENT, the call returns
LOCK_ERR_RMSTALE (StaleRemovalFailed) without unlinking the temp file
it created. -/
theorem rmstale_leaves_temp :
    (ap_lockfile_create (some ['L']) 42 3 true true true 7 0 staleStuckEnvF).result =
      LOCK_ERR_RMSTALE ∧
    (ap_lockfile_create (some ['L']) 42 3 true true true 7 0 staleStuckEnvF).tempCreated =
      true ∧
    (ap_lockfile_create (some ['L']) 42 3 true true true 7 0 staleStuckEnvF).tempUnlinked =
      false := by
  refine ⟨?_, ?_, ?_⟩ <;>
    simp [ap_lockfile_create, lockfile_try_create, tryLoop, tmplock_filename,
      natDigits, natDigitsCore, staleStuckEnvF, envStaleStuck, LOCK_ERR_RMSTALE]

/-- C7 (amended): TempWriteFailed and MaxRetriesExceeded (both its
return sites) unlink the TempLockPath before returning, as does the
Acquired outcome; StaleRemovalFailed returns without unlinking the
temp file, and the post-creation GenericError (temp file vanished
out-of-band) likewise leaves it unaccounted for. -/
theorem failure_temp_unlink_semantics (lfo : Option (List Char))
    (pid retries : Nat) (mOk oOk wOk : Bool) (npid ntime : Nat)
    (env : Nat → IterEnv) :
    ((ap_lockfile_create lfo pid retries mOk oOk wOk npid ntime env).result =
        LOCK_ERR_TMPWRITE →
      (ap_lockfile_create lfo pid retries mOk oOk wOk npid ntime env).tempUnlinked = true) ∧
    ((ap_lockfile_create lfo pid retries mOk oOk wOk npid ntime env).result =
        LOCK_ERR_MAXRETRIES →
      (ap_lockfile_create lfo pid retries mOk oOk wOk npid ntime env).tempUnlinked = true) ∧
    ((ap_lockfile_create lfo pid retries mOk oOk wOk npid ntime env).result = 0 →
      (ap_lockfile_create lfo pid retries mOk oOk wOk npid ntime env).tempUnlinked = true) ∧
    ((ap_lockfile_create lfo pid retries mOk oOk wOk npid ntime env).result =
        LOCK_ERR_RMSTALE →
      (ap_lockfile_create lfo pid retries mOk oOk wOk npid ntime env).tempUnlinked = false) ∧
    ((ap_lockfile_create lfo pid retries mOk oOk wOk npid ntime env).result =
          LOCK_ERR_GENERIC ∧
        (ap_lockfile_create lfo pid retries mOk oOk wOk npid ntime env).tempCreated = true →
      (ap_lockfile_create lfo pid retries mOk oOk wOk npid ntime env).tempUnlinked = false) := by
  rcases ap_create_cases lfo pid retries mOk oOk wOk npid ntime env with
    he | he | he | ⟨hr, he⟩ <;> rw [he]
  · exact ⟨by decide, by decide, by decide, by decide, by decide⟩
  · exact ⟨by decide, by decide, by decide, by decide, by decide⟩
  · exact ⟨by decide, by decide, by decide, by decide, by decide⟩
  · obtain ⟨L, S, A, U4, U0, U8, U5, T, C⟩ :=
      tryLoop_inv env (retries + 2) (retries + 1) 0 0 0 true (by split <;> omega)
    exact ⟨fun hw => absurd hw T, U4, U0, U8, fun hg => U5 hg.1⟩

/-- Witness for C7 (amended): a contended run that exhausts its tries
returns LOCK_ERR_MAXRETRIES with the temp file unlinked. -/
theorem failure_temp_unlink_semantics_witness :
    (ap_lockfile_create (some ['L']) 42 1 true true true 7 0 busyEnvF).result =
      LOCK_ERR_MAXRETRIES ∧
    (ap_lockfile_create (some ['L']) 42 1 true true true 7 0 busyEnvF).tempUnlinked =
      true :=
  ⟨by simp [ap_lockfile_create, lockfile_try_create, tryLoop, tmplock_filename,
      natDigits, natDigitsCore, busyEnvF, envBusy, LOCK_ERR_MAXRETRIES],
   (failure_temp_unlink_semantics (some ['L']) 42 1 true true true 7 0 busyEnvF).2.1
     (by simp [ap_lockfile_create, lockfile_try_create, tryLoop, tmplock_filename,
          natDigits, natDigitsCore, busyEnvF, envBusy, LOCK_ERR_MAXRETRIES])⟩

end Lockfile
